import Mathlib

/-!
Verification of the Zephyr GPIO power-domain driver
(`src/drivers/power_domain/power_domain_gpio.c`).

The driver is embedded shallowly: time is an explicit uptime counter in
kernel ticks (`Int`), `k_sleep` is a function on that counter, and every
externally visible effect (pin configure, pin level set, dependent
notification) is recorded in a trace of timestamped events.  Machine
integers are modelled as `Nat`/`Int` with explicit `% 2^32` / `% 2^64`
where the kernel's tick-conversion helpers truncate.

Parts of the repository that the claims depend on but that are not under
`src/` (the PM core's children fan-out, its state-precondition dispatch,
and `pm_device_driver_init`) are modelled from the specification; each
such definition carries a doc comment starting `Modelled from the spec:`.
-/

namespace PowerDomainGpio

/-! ## Kernel time model -/

/-- Ceiling conversion from microseconds to kernel ticks at `hz` ticks per
second, as computed by Zephyr's `z_tmcvt` with rounding up:
`ceil(us * hz / 1000000)`. -/
def z_tmcvt_ceil (hz us : Nat) : Nat :=
  (us * hz + 999999) / 1000000

/-- Zephyr `k_us_to_ticks_ceil32`: microseconds to ticks, rounded up,
truncated to 32 bits. -/
def k_us_to_ticks_ceil32 (hz us : Nat) : Nat :=
  z_tmcvt_ceil hz us % 2 ^ 32

/-- Zephyr `k_us_to_ticks_ceil64`: microseconds to ticks, rounded up,
truncated to 64 bits. -/
def k_us_to_ticks_ceil64 (hz us : Nat) : Nat :=
  z_tmcvt_ceil hz us % 2 ^ 64

/-- Zephyr `k_timeout_t`: either an absolute tick deadline
(`K_TIMEOUT_ABS_TICKS`) or a relative duration in ticks. -/
inductive k_timeout_t where
  | absTicks (deadline : Int)
  | relTicks (dur : Nat)
deriving DecidableEq, Repr

/-- Zephyr `K_TIMEOUT_ABS_TICKS(t)`: absolute timeout at tick `t`. -/
def K_TIMEOUT_ABS_TICKS (t : Int) : k_timeout_t :=
  k_timeout_t.absTicks t

/-- Zephyr `K_TIMEOUT_ABS_US(us)`: absolute timeout at `us` microseconds
after boot, converted to ticks with `k_us_to_ticks_ceil64`. -/
def K_TIMEOUT_ABS_US (hz us : Nat) : k_timeout_t :=
  k_timeout_t.absTicks (k_us_to_ticks_ceil64 hz us)

/-- Zephyr `K_USEC(us)`: relative timeout of `us` microseconds, converted
to ticks rounding up. -/
def K_USEC (hz us : Nat) : k_timeout_t :=
  k_timeout_t.relTicks (k_us_to_ticks_ceil32 hz us)

/-- Zephyr `k_sleep` acting on the uptime-tick counter `now`: a relative
timeout advances the clock by its duration; an absolute timeout sleeps
until the deadline, and is a no-op when the deadline has already passed. -/
def k_sleep (now : Int) : k_timeout_t → Int
  | k_timeout_t.absTicks d => max now d
  | k_timeout_t.relTicks n => now + n

/-! ## GPIO flag constants (from `zephyr/drivers/gpio.h`) -/

/-- GPIO_DISCONNECTED: neither input nor output; the pin floats. -/
def GPIO_DISCONNECTED : Nat := 0

/-- GPIO_OUTPUT flag bit. -/
def GPIO_OUTPUT : Nat := 2 ^ 17

/-- GPIO_OUTPUT_INIT_LOW flag bit. -/
def GPIO_OUTPUT_INIT_LOW : Nat := 2 ^ 18

/-- GPIO_OUTPUT_INACTIVE: configured as output, initialized to the
inactive (low) level. -/
def GPIO_OUTPUT_INACTIVE : Nat := GPIO_OUTPUT ||| GPIO_OUTPUT_INIT_LOW

/-- GPIO_DS_ALT: alternative (highest) drive strength. -/
def GPIO_DS_ALT : Nat := 2 ^ 9

/-! ## Error codes (Zephyr errno values) -/

/-- Zephyr errno ENOTSUP. -/
def ENOTSUP : Int := 134

/-- Zephyr errno ENODEV. -/
def ENODEV : Int := 19

/-- Zephyr errno EINVAL. -/
def EINVAL : Int := 22

/-! ## Device model -/

/-- The `pd_gpio_config` struct: immutable per-instance configuration
(the `enable` pin reference itself is opaque and not needed by the
sequencing logic). -/
structure pd_gpio_config where
  startup_delay_us : Nat
  off_on_delay_us : Nat
  enable_high_drive : Bool
deriving DecidableEq, Repr

/-- The `pd_gpio_data` struct: the single mutable field, the earliest
absolute time the domain may next be energized. -/
structure pd_gpio_data where
  next_boot : k_timeout_t
deriving DecidableEq, Repr

/-- A PM device action (`enum pm_device_action`), plus `invalid n` for an
out-of-enum integer value reaching the `default` branch of the switch. -/
inductive pm_device_action where
  | RESUME
  | SUSPEND
  | TURN_ON
  | TURN_OFF
  | invalid (n : Nat)
deriving DecidableEq, Repr

/-- A device instance: its static configuration and the ordered list of
registered dependent (child) device ids. -/
structure device where
  config : pd_gpio_config
  dependents : List Nat
deriving DecidableEq, Repr

/-- Externally visible effects, stamped with the uptime tick at which
they occur. -/
inductive Event where
  | gpioSet (t : Int) (level : Nat)
  | gpioConfigure (t : Int) (flags : Nat)
  | childNotify (t : Int) (dep : Nat) (a : pm_device_action)
deriving DecidableEq, Repr

/-- Return codes of the fallible collaborator calls whose results the
driver receives (and, as proved below, discards). -/
structure GpioEnv where
  pin_set_rc : Int
  pin_configure_rc : Int
  children_rc : Int
deriving DecidableEq, Repr

/-- Result of one driver entry-point invocation: return code, the data
struct after the call, the uptime tick at return, and the effect trace. -/
structure ActionResult where
  rc : Int
  data : pd_gpio_data
  now : Int
  trace : List Event
deriving DecidableEq, Repr

/-! ## PM core collaborators (not under `src/`) -/

/-- Modelled from the spec: `pm_device_children_action_run` (PM core, not
under `src/`) performs a synchronous fan-out, notifying each registered
dependent of the action, in registration order, each exactly once.  Each
notification is allowed to take `dur` ticks of wall time; the function
returns the events and the uptime after the fan-out. -/
def pm_device_children_action_run (dur : Nat) (a : pm_device_action) :
    Int → List Nat → List Event × Int
  | t, [] => ([], t)
  | t, d :: rest =>
      let r := pm_device_children_action_run dur a (t + dur) rest
      (Event.childNotify t d a :: r.1, r.2)

/-- Modelled from the spec: `pm_device_driver_init` (PM core, not under
`src/`) boots the device into its initial power mode; per the spec,
initialization itself does not energize the rail and reports success. -/
def pm_device_driver_init : Int × List Event :=
  (0, [])

/-! ## The driver (`pd_gpio_pm_action`, `pd_gpio_init`) -/

/-- The `pd_gpio_pm_action` entry point, translated from
`src/drivers/power_domain/power_domain_gpio.c` lines 29-85.  `hz` is the
kernel tick rate, `dur` the wall time a single dependent notification may
take, `env` the collaborator return codes (received and discarded, as in
the C), `can_yield` the result of `k_can_yield()`, and `now` the uptime
tick at entry. -/
def pd_gpio_pm_action (hz dur : Nat) (dev : device) (env : GpioEnv)
    (can_yield : Bool) (data : pd_gpio_data) (now : Int)
    (action : pm_device_action) : ActionResult :=
  if !can_yield then
    { rc := -ENOTSUP, data := data, now := now, trace := [] }
  else
    match action with
    | pm_device_action.RESUME =>
        let t1 := k_sleep now data.next_boot
        let t2 := k_sleep t1 (K_USEC hz dev.config.startup_delay_us)
        let fanout := pm_device_children_action_run dur
          pm_device_action.TURN_ON t2 dev.dependents
        { rc := 0, data := data, now := fanout.2,
          trace := Event.gpioSet t1 1 :: fanout.1 }
    | pm_device_action.SUSPEND =>
        let fanout := pm_device_children_action_run dur
          pm_device_action.TURN_OFF now dev.dependents
        let tOff := fanout.2
        let next_boot_ticks : Int :=
          tOff + k_us_to_ticks_ceil32 hz dev.config.off_on_delay_us
        { rc := 0, data := { next_boot := K_TIMEOUT_ABS_TICKS next_boot_ticks },
          now := tOff, trace := fanout.1 ++ [Event.gpioSet tOff 0] }
    | pm_device_action.TURN_ON =>
        let flags : Nat := if dev.config.enable_high_drive then GPIO_DS_ALT else 0
        { rc := 0, data := data, now := now,
          trace := [Event.gpioConfigure now (GPIO_OUTPUT_INACTIVE ||| flags)] }
    | pm_device_action.TURN_OFF =>
        { rc := 0, data := data, now := now,
          trace := [Event.gpioConfigure now GPIO_DISCONNECTED] }
    | pm_device_action.invalid _ =>
        { rc := -ENOTSUP, data := data, now := now, trace := [] }

/-- The `pd_gpio_init` entry point, translated from
`src/drivers/power_domain/power_domain_gpio.c` lines 87-110.
`port_ready` models `device_is_ready(cfg->enable.port)`; `has_parent` and
`parent_ready` model `dev->pm->domain` and its readiness. -/
def pd_gpio_init (hz dur : Nat) (dev : device) (env : GpioEnv)
    (port_ready has_parent parent_ready : Bool) (data : pd_gpio_data)
    (now : Int) : ActionResult :=
  if !port_ready then
    { rc := -ENODEV, data := data, now := now, trace := [] }
  else if has_parent && !parent_ready then
    { rc := -EINVAL, data := data, now := now, trace := [] }
  else
    let seeded : pd_gpio_data :=
      { next_boot := K_TIMEOUT_ABS_US hz dev.config.off_on_delay_us }
    let r := pd_gpio_pm_action hz dur dev env true seeded now
      pm_device_action.TURN_OFF
    { rc := pm_device_driver_init.1, data := r.data, now := r.now,
      trace := r.trace ++ pm_device_driver_init.2 }

/-! ## Spec-modelled state machine dispatch (PM core, not under `src/`) -/

/-- The three sequencer states of the spec's transition table. -/
inductive pd_state where
  | DISCONNECTED
  | DRIVEN_OFF
  | ON
deriving DecidableEq, Repr

/-- Modelled from the spec: the precondition column of the transition
table in section 4.1 (the state bookkeeping lives in the PM core's
`pm_device_action_run`, not under `src/`).  `TURN_OFF` is additionally
accepted idempotently from `DISCONNECTED`; an unrecognized action is
accepted in no state. -/
def action_precondition : pm_device_action → pd_state → Bool
  | pm_device_action.TURN_ON, pd_state.DISCONNECTED => true
  | pm_device_action.TURN_OFF, pd_state.DRIVEN_OFF => true
  | pm_device_action.TURN_OFF, pd_state.DISCONNECTED => true
  | pm_device_action.RESUME, pd_state.DRIVEN_OFF => true
  | pm_device_action.SUSPEND, pd_state.ON => true
  | _, _ => false

/-- Modelled from the spec: the resulting-state column of the transition
table in section 4.1. -/
def resulting_state : pm_device_action → pd_state → pd_state
  | pm_device_action.TURN_ON, _ => pd_state.DRIVEN_OFF
  | pm_device_action.TURN_OFF, _ => pd_state.DISCONNECTED
  | pm_device_action.RESUME, _ => pd_state.ON
  | pm_device_action.SUSPEND, _ => pd_state.DRIVEN_OFF
  | pm_device_action.invalid _, s => s

/-- The InvalidTransition error of the spec's error taxonomy (grouped
with NotSupported, reported as -ENOTSUP). -/
def InvalidTransition : Int := -ENOTSUP

/-- Result of one invocation of the state-checking entry point. -/
structure EntryResult where
  rc : Int
  state : pd_state
  data : pd_gpio_data
  now : Int
  trace : List Event
deriving DecidableEq, Repr

/-- Modelled from the spec: the action entry point with state-precondition
checking (the PM core's `pm_device_action_run`, not under `src/`).  An
action whose precondition state does not hold is rejected with
`InvalidTransition` and no effect; otherwise the driver action runs and,
on success, the state advances per the transition table. -/
def pd_entry_point (hz dur : Nat) (dev : device) (env : GpioEnv)
    (s : pd_state) (can_yield : Bool) (data : pd_gpio_data) (now : Int)
    (action : pm_device_action) : EntryResult :=
  if !(action_precondition action s) then
    { rc := InvalidTransition, state := s, data := data, now := now, trace := [] }
  else
    let r := pd_gpio_pm_action hz dur dev env can_yield data now action
    { rc := r.rc,
      state := if r.rc = 0 then resulting_state action s else s,
      data := r.data, now := r.now, trace := r.trace }

/-! ## Pin state, derived from the trace -/

/-- Electrical state of the enable pin: its configured flags and its
driven logical level. -/
structure pin_state where
  flags : Nat
  level : Nat
deriving DecidableEq, Repr

/-- Effect of one event on the pin: a configure replaces the flags (and
drives the level low when the configuration initializes the output low);
a set replaces the level; dependent notifications do not touch this pin. -/
def apply_event (p : pin_state) : Event → pin_state
  | Event.gpioConfigure _ f =>
      { flags := f,
        level := if f &&& GPIO_OUTPUT_INIT_LOW ≠ 0 then 0 else p.level }
  | Event.gpioSet _ l => { p with level := l }
  | Event.childNotify _ _ _ => p

/-- Pin state after a trace of events. -/
def apply_events (p : pin_state) (evs : List Event) : pin_state :=
  evs.foldl apply_event p

/-- Events of a trace that are dependent notifications. -/
def child_events (evs : List Event) : List Event :=
  evs.filter (fun e =>
    match e with
    | Event.childNotify _ _ _ => true
    | _ => false)

/-- Timestamp of an event. -/
def event_time : Event → Int
  | Event.gpioSet t _ => t
  | Event.gpioConfigure t _ => t
  | Event.childNotify t _ _ => t

/-- Dependent targeted by an event, when it is a notification. -/
def event_dep : Event → Option Nat
  | Event.childNotify _ d _ => some d
  | _ => none

/-- Action carried by an event, when it is a notification. -/
def event_action : Event → Option pm_device_action
  | Event.childNotify _ _ a => some a
  | _ => none

/-- An event that de-energizes the rail: the enable pin driven to level 0. -/
def is_deenergize : Event → Bool
  | Event.gpioSet _ l => l = 0
  | _ => false

/-- Fold recording the timestamp of the latest de-energize event of a
trace, starting from a previously recorded timestamp (if any). -/
def last_deenergize_from (acc : Option Int) (tr : List Event) : Option Int :=
  tr.foldl (fun a e => if is_deenergize e then some (event_time e) else a) acc

/-- Timestamp of the last de-energize event of a trace, if any. -/
def last_deenergize_time (tr : List Event) : Option Int :=
  last_deenergize_from none tr

/-- A sequence of requests against one instance, run to completion one
after the other (the caller serializes; each request records whether it
arrived in a blockable context).  Returns the final data struct, the
final uptime, and the concatenated effect trace. -/
def run (hz dur : Nat) (dev : device) (env : GpioEnv) :
    pd_gpio_data → Int → List (Bool × pm_device_action) →
      pd_gpio_data × Int × List Event
  | data, now, [] => (data, now, [])
  | data, now, (cy, a) :: rest =>
      let r := pd_gpio_pm_action hz dur dev env cy data now a
      let rr := run hz dur dev env r.data r.now rest
      (rr.1, rr.2.1, r.trace ++ rr.2.2)

/-! ## Concrete instances used by witnesses -/

/-- Sample configuration: 1000 us startup delay, 5000 us cooldown. -/
def cfg0 : pd_gpio_config :=
  { startup_delay_us := 1000, off_on_delay_us := 5000, enable_high_drive := false }

/-- Sample device with two registered dependents. -/
def dev0 : device := { config := cfg0, dependents := [7, 8] }

/-- Sample collaborator return codes, all failing, to exercise the
discarding of error results. -/
def env0 : GpioEnv := { pin_set_rc := -5, pin_configure_rc := -3, children_rc := -1 }

/-- Sample data struct with an already-expired energize deadline. -/
def data0 : pd_gpio_data := { next_boot := K_TIMEOUT_ABS_TICKS 0 }

/-! ## Fan-out lemmas -/

theorem children_run_snd (dur : Nat) (a : pm_device_action) :
    ∀ (t : Int) (deps : List Nat),
      (pm_device_children_action_run dur a t deps).2 = t + deps.length * dur
  | _, [] => by simp [pm_device_children_action_run]
  | t, _ :: rest => by
      have ih := children_run_snd dur a (t + dur) rest
      simp only [pm_device_children_action_run, ih, List.length_cons]
      push_cast
      ring

theorem children_run_map_dep (dur : Nat) (a : pm_device_action) :
    ∀ (t : Int) (deps : List Nat),
      (pm_device_children_action_run dur a t deps).1.map event_dep =
        deps.map some
  | _, [] => rfl
  | t, _ :: rest => by
      have ih := children_run_map_dep dur a (t + dur) rest
      simp only [pm_device_children_action_run, List.map_cons, ih, event_dep]

theorem children_run_mem (dur : Nat) (a : pm_device_action) :
    ∀ (t : Int) (deps : List Nat) (e : Event),
      e ∈ (pm_device_children_action_run dur a t deps).1 →
      ∃ t' d, e = Event.childNotify t' d a ∧ t ≤ t' ∧
        t' ≤ (pm_device_children_action_run dur a t deps).2
  | _, [], _, h => by simp [pm_device_children_action_run] at h
  | t, d :: rest, e, h => by
      have hsnd := children_run_snd dur a t (d :: rest)
      simp only [pm_device_children_action_run, List.mem_cons] at h
      rcases h with h | h
      · refine ⟨t, d, h, le_refl t, ?_⟩
        rw [hsnd]
        have hnn : (0 : Int) ≤ ((d :: rest).length : Int) * (dur : Int) := by
          positivity
        linarith
      · obtain ⟨t', d', he, ht, hend⟩ :=
          children_run_mem dur a (t + dur) rest e h
        refine ⟨t', d', he, ?_, ?_⟩
        · have : (0 : Int) ≤ dur := Int.ofNat_nonneg dur
          linarith
        · rw [hsnd]
          rw [children_run_snd dur a (t + dur) rest] at hend
          simp only [List.length_cons]
          push_cast at hend ⊢
          ring_nf at hend ⊢
          linarith

theorem children_run_countP (dur : Nat) (a : pm_device_action) (d : Nat) :
    ∀ (t : Int) (deps : List Nat),
      (pm_device_children_action_run dur a t deps).1.countP
          (fun e => event_dep e == some d) = deps.count d
  | _, [] => by simp [pm_device_children_action_run]
  | t, d' :: rest => by
      have ih := children_run_countP dur a d (t + dur) rest
      simp only [pm_device_children_action_run, List.countP_cons,
        List.count_cons, ih]
      simp [event_dep]

theorem children_run_ldf (dur : Nat) (a : pm_device_action) :
    ∀ (t : Int) (deps : List Nat) (acc : Option Int),
      last_deenergize_from acc
        (pm_device_children_action_run dur a t deps).1 = acc
  | _, [], _ => rfl
  | t, _ :: rest, acc => by
      have ih := children_run_ldf dur a (t + dur) rest acc
      simp only [last_deenergize_from] at ih ⊢
      simp only [pm_device_children_action_run, List.foldl_cons]
      simpa [is_deenergize] using ih

theorem children_run_child_events (dur : Nat) (a : pm_device_action) :
    ∀ (t : Int) (deps : List Nat),
      child_events (pm_device_children_action_run dur a t deps).1 =
        (pm_device_children_action_run dur a t deps).1
  | _, [] => rfl
  | t, _ :: rest => by
      have ih := children_run_child_events dur a (t + dur) rest
      simp only [pm_device_children_action_run, child_events, List.filter_cons]
      simp only [child_events] at ih
      simp [ih]

theorem us_to_ticks_ceil32_lower (hz us : Nat)
    (hfit : us * hz + 999999 < 2 ^ 32 * 1000000) :
    us * hz ≤ k_us_to_ticks_ceil32 hz us * 1000000 := by
  unfold k_us_to_ticks_ceil32 z_tmcvt_ceil
  set a := us * hz with ha
  omega

theorem child_events_cons_set (t : Int) (l : Nat) (evs : List Event) :
    child_events (Event.gpioSet t l :: evs) = child_events evs := by
  simp [child_events, List.filter_cons]

theorem child_events_append (evs1 evs2 : List Event) :
    child_events (evs1 ++ evs2) = child_events evs1 ++ child_events evs2 := by
  simp [child_events, List.filter_append]

theorem child_events_single_set (t : Int) (l : Nat) :
    child_events [Event.gpioSet t l] = [] := by
  simp [child_events, List.filter_cons]

/-! ## Claim theorems -/

/-- C6: any action — the four recognized ones and any unrecognized value —
invoked from a context that cannot block returns -ENOTSUP immediately,
with an empty effect trace (no pin operation, no dependent notification),
an unchanged data struct, and no time passing. -/
theorem nonblockable_context_rejected (hz dur : Nat) (dev : device)
    (env : GpioEnv) (data : pd_gpio_data) (now : Int) (a : pm_device_action) :
    pd_gpio_pm_action hz dur dev env false data now a =
      { rc := -ENOTSUP, data := data, now := now, trace := [] } := by
  rfl

/-- C10: each of the four recognized actions, invoked from a blockable
context, returns 0, and the entire result is independent of the return
codes the collaborator calls produce — a failing pin operation or
dependent notification is never reported to the caller. -/
theorem recognized_actions_return_zero (hz dur : Nat) (dev : device)
    (env env2 : GpioEnv) (data : pd_gpio_data) (now : Int) :
    (pd_gpio_pm_action hz dur dev env true data now pm_device_action.RESUME).rc = 0 ∧
    (pd_gpio_pm_action hz dur dev env true data now pm_device_action.SUSPEND).rc = 0 ∧
    (pd_gpio_pm_action hz dur dev env true data now pm_device_action.TURN_ON).rc = 0 ∧
    (pd_gpio_pm_action hz dur dev env true data now pm_device_action.TURN_OFF).rc = 0 ∧
    (∀ a : pm_device_action,
      pd_gpio_pm_action hz dur dev env true data now a =
        pd_gpio_pm_action hz dur dev env2 true data now a) := by
  refine ⟨rfl, rfl, rfl, rfl, fun a => rfl⟩

/-- C9: initialization returns -ENODEV when the enable pin's GPIO port is
not ready and -EINVAL when a parent domain exists but is not ready, in
both cases with no effects; when the dependencies are ready it seeds the
energize deadline at boot plus a full cooldown window, performs exactly
the TURN_OFF configure step (pin disconnected), never drives the pin
active, and reports the boot-mode result. -/
theorem init_dependency_checks_and_seed (hz dur : Nat) (dev : device)
    (env : GpioEnv) (hp pr : Bool) (data : pd_gpio_data) (now : Int) :
    (pd_gpio_init hz dur dev env false hp pr data now =
      { rc := -ENODEV, data := data, now := now, trace := [] }) ∧
    (pd_gpio_init hz dur dev env true true false data now =
      { rc := -EINVAL, data := data, now := now, trace := [] }) ∧
    (pd_gpio_init hz dur dev env true false pr data now =
      { rc := 0,
        data := ⟨k_timeout_t.absTicks (k_us_to_ticks_ceil64 hz dev.config.off_on_delay_us)⟩,
        now := now,
        trace := [Event.gpioConfigure now GPIO_DISCONNECTED] }) ∧
    (pd_gpio_init hz dur dev env true true true data now =
      { rc := 0,
        data := ⟨k_timeout_t.absTicks (k_us_to_ticks_ceil64 hz dev.config.off_on_delay_us)⟩,
        now := now,
        trace := [Event.gpioConfigure now GPIO_DISCONNECTED] }) := by
  refine ⟨rfl, rfl, rfl, rfl⟩

/-- C5: an action requested while the current state does not satisfy its
precondition from the transition table is rejected by the entry point
with InvalidTransition: no pin operation, no notification, no change to
the data struct, the state, or the clock. -/
theorem invalid_transition_rejected (hz dur : Nat) (dev : device)
    (env : GpioEnv) (s : pd_state) (can_yield : Bool) (data : pd_gpio_data)
    (now : Int) (a : pm_device_action)
    (h : action_precondition a s = false) :
    pd_entry_point hz dur dev env s can_yield data now a =
      { rc := InvalidTransition, state := s, data := data, now := now,
        trace := [] } := by
  unfold pd_entry_point
  rw [h]
  rfl

/-- Witness for C5: RESUME while already ON is rejected with
InvalidTransition and no effects. -/
theorem invalid_transition_rejected_witness :
    action_precondition pm_device_action.RESUME pd_state.ON = false ∧
    pd_entry_point 32768 0 dev0 env0 pd_state.ON true data0 0
        pm_device_action.RESUME =
      { rc := InvalidTransition, state := pd_state.ON, data := data0,
        now := 0, trace := [] } :=
  ⟨rfl, invalid_transition_rejected 32768 0 dev0 env0 pd_state.ON true data0 0
    pm_device_action.RESUME rfl⟩

/-- C8: TURN_OFF issued while the instance is already DISCONNECTED is
accepted, returns 0, leaves the state DISCONNECTED and the data struct
untouched, and leaves a floating pin floating (the disconnect configure
is idempotent on the pin state, whatever residual level the pin had). -/
theorem turn_off_idempotent_from_disconnected (hz dur : Nat) (dev : device)
    (env : GpioEnv) (data : pd_gpio_data) (now : Int) (lvl : Nat) :
    (pd_entry_point hz dur dev env pd_state.DISCONNECTED true data now
        pm_device_action.TURN_OFF).rc = 0 ∧
    (pd_entry_point hz dur dev env pd_state.DISCONNECTED true data now
        pm_device_action.TURN_OFF).state = pd_state.DISCONNECTED ∧
    (pd_entry_point hz dur dev env pd_state.DISCONNECTED true data now
        pm_device_action.TURN_OFF).data = data ∧
    apply_events { flags := GPIO_DISCONNECTED, level := lvl }
      (pd_entry_point hz dur dev env pd_state.DISCONNECTED true data now
        pm_device_action.TURN_OFF).trace =
      { flags := GPIO_DISCONNECTED, level := lvl } := by
  refine ⟨rfl, rfl, rfl, ?_⟩
  simp [pd_entry_point, pd_gpio_pm_action, action_precondition, apply_events,
    apply_event, GPIO_DISCONNECTED, GPIO_OUTPUT_INIT_LOW]

/-- C2: an accepted SUSPEND first notifies every dependent of TURN_OFF (in
registration order), then drives the pin to level 0, and the stored
energize deadline is the pin-off timestamp plus the cooldown in ticks
(rounded up); every notification happens no later than the pin-off, and
the call completes at the pin-off instant. -/
theorem suspend_sequencing (hz dur : Nat) (dev : device) (env : GpioEnv)
    (data : pd_gpio_data) (now : Int) :
    ∃ (evs : List Event) (tOff : Int),
      (pd_gpio_pm_action hz dur dev env true data now
          pm_device_action.SUSPEND).trace = evs ++ [Event.gpioSet tOff 0] ∧
      evs.map event_dep = dev.dependents.map some ∧
      (∀ e ∈ evs, event_action e = some pm_device_action.TURN_OFF) ∧
      (∀ e ∈ evs, event_time e ≤ tOff) ∧
      now ≤ tOff ∧
      (pd_gpio_pm_action hz dur dev env true data now
          pm_device_action.SUSPEND).data.next_boot =
        k_timeout_t.absTicks
          (tOff + (k_us_to_ticks_ceil32 hz dev.config.off_on_delay_us : Int)) ∧
      (pd_gpio_pm_action hz dur dev env true data now
          pm_device_action.SUSPEND).now = tOff := by
  refine ⟨(pm_device_children_action_run dur pm_device_action.TURN_OFF now
      dev.dependents).1,
    (pm_device_children_action_run dur pm_device_action.TURN_OFF now
      dev.dependents).2, rfl, children_run_map_dep dur _ now dev.dependents,
    ?_, ?_, ?_, rfl, rfl⟩
  · intro e he
    obtain ⟨t', d', rfl, _, _⟩ := children_run_mem dur _ now dev.dependents e he
    rfl
  · intro e he
    obtain ⟨t', d', rfl, _, hle⟩ := children_run_mem dur _ now dev.dependents e he
    exact hle
  · rw [children_run_snd dur _ now dev.dependents]
    have h : (0 : Int) ≤ (dev.dependents.length : Int) * (dur : Int) := by
      positivity
    linarith

/-- C7: fan-out completeness — an accepted RESUME notifies exactly the
registered dependents, in registration order, each with TURN_ON, and an
accepted SUSPEND notifies exactly the registered dependents, in
registration order, each with TURN_OFF; a dependent registered once is
notified exactly once. -/
theorem fanout_completeness (hz dur : Nat) (dev : device) (env : GpioEnv)
    (data : pd_gpio_data) (now : Int) :
    ((child_events (pd_gpio_pm_action hz dur dev env true data now
        pm_device_action.RESUME).trace).map event_dep =
      dev.dependents.map some) ∧
    ((child_events (pd_gpio_pm_action hz dur dev env true data now
        pm_device_action.RESUME).trace).length = dev.dependents.length) ∧
    (∀ e ∈ child_events (pd_gpio_pm_action hz dur dev env true data now
        pm_device_action.RESUME).trace,
      event_action e = some pm_device_action.TURN_ON) ∧
    (∀ d : Nat, (child_events (pd_gpio_pm_action hz dur dev env true data now
        pm_device_action.RESUME).trace).countP
          (fun e => event_dep e == some d) = dev.dependents.count d) ∧
    ((child_events (pd_gpio_pm_action hz dur dev env true data now
        pm_device_action.SUSPEND).trace).map event_dep =
      dev.dependents.map some) ∧
    ((child_events (pd_gpio_pm_action hz dur dev env true data now
        pm_device_action.SUSPEND).trace).length = dev.dependents.length) ∧
    (∀ e ∈ child_events (pd_gpio_pm_action hz dur dev env true data now
        pm_device_action.SUSPEND).trace,
      event_action e = some pm_device_action.TURN_OFF) ∧
    (∀ d : Nat, (child_events (pd_gpio_pm_action hz dur dev env true data now
        pm_device_action.SUSPEND).trace).countP
          (fun e => event_dep e == some d) = dev.dependents.count d) := by
  have hR : child_events (pd_gpio_pm_action hz dur dev env true data now
      pm_device_action.RESUME).trace =
      (pm_device_children_action_run dur pm_device_action.TURN_ON
        (k_sleep (k_sleep now data.next_boot)
          (K_USEC hz dev.config.startup_delay_us)) dev.dependents).1 := by
    show child_events (Event.gpioSet (k_sleep now data.next_boot) 1 ::
      (pm_device_children_action_run dur pm_device_action.TURN_ON
        (k_sleep (k_sleep now data.next_boot)
          (K_USEC hz dev.config.startup_delay_us)) dev.dependents).1) = _
    rw [child_events_cons_set, children_run_child_events]
  have hS : child_events (pd_gpio_pm_action hz dur dev env true data now
      pm_device_action.SUSPEND).trace =
      (pm_device_children_action_run dur pm_device_action.TURN_OFF now
        dev.dependents).1 := by
    show child_events
      ((pm_device_children_action_run dur pm_device_action.TURN_OFF now
        dev.dependents).1 ++ [Event.gpioSet _ 0]) = _
    rw [child_events_append, children_run_child_events,
      child_events_single_set, List.append_nil]
  rw [hR, hS]
  refine ⟨children_run_map_dep dur _ _ dev.dependents, ?_, ?_,
    fun d => children_run_countP dur _ d _ dev.dependents,
    children_run_map_dep dur _ _ dev.dependents, ?_, ?_,
    fun d => children_run_countP dur _ d _ dev.dependents⟩
  · have h := congrArg List.length
      (children_run_map_dep dur pm_device_action.TURN_ON
        (k_sleep (k_sleep now data.next_boot)
          (K_USEC hz dev.config.startup_delay_us)) dev.dependents)
    simpa using h
  · intro e he
    obtain ⟨t', d', rfl, _, _⟩ := children_run_mem dur _ _ dev.dependents e he
    rfl
  · have h := congrArg List.length
      (children_run_map_dep dur pm_device_action.TURN_OFF now dev.dependents)
    simpa using h
  · intro e he
    obtain ⟨t', d', rfl, _, _⟩ := children_run_mem dur _ _ dev.dependents e he
    rfl

/-- C1: an accepted RESUME first blocks until the stored energize
deadline (the pin goes active at max(now, deadline)), then drives the pin
to level 1, then blocks for the startup delay, and only then fans out
TURN_ON to the dependents in registration order: every notification
happens at least the startup delay (converted to ticks, rounded up) after
the pin was driven active, hence no earlier than startup_delay_us
microseconds after it. -/
theorem resume_sequencing (hz dur : Nat) (dev : device) (env : GpioEnv)
    (data : pd_gpio_data) (now nb : Int)
    (hnb : data.next_boot = k_timeout_t.absTicks nb)
    (hfit : dev.config.startup_delay_us * hz + 999999 < 2 ^ 32 * 1000000) :
    ∃ evs : List Event,
      (pd_gpio_pm_action hz dur dev env true data now
          pm_device_action.RESUME).trace =
        Event.gpioSet (max now nb) 1 :: evs ∧
      evs.map event_dep = dev.dependents.map some ∧
      (∀ e ∈ evs, event_action e = some pm_device_action.TURN_ON) ∧
      (∀ e ∈ evs, max now nb +
        (k_us_to_ticks_ceil32 hz dev.config.startup_delay_us : Int) ≤
          event_time e) ∧
      (∀ e ∈ evs, (dev.config.startup_delay_us * hz : Int) ≤
        (event_time e - max now nb) * 1000000) := by
  have htr : (pd_gpio_pm_action hz dur dev env true data now
      pm_device_action.RESUME).trace =
      Event.gpioSet (max now nb) 1 ::
        (pm_device_children_action_run dur pm_device_action.TURN_ON
          (max now nb +
            (k_us_to_ticks_ceil32 hz dev.config.startup_delay_us : Int))
          dev.dependents).1 := by
    show Event.gpioSet (k_sleep now data.next_boot) 1 ::
        (pm_device_children_action_run dur pm_device_action.TURN_ON
          (k_sleep (k_sleep now data.next_boot)
            (K_USEC hz dev.config.startup_delay_us)) dev.dependents).1 = _
    rw [hnb]
    rfl
  rw [htr]
  have hlow := us_to_ticks_ceil32_lower hz dev.config.startup_delay_us hfit
  refine ⟨_, rfl, children_run_map_dep dur _ _ dev.dependents, ?_, ?_, ?_⟩
  · intro e he
    obtain ⟨t', d', rfl, _, _⟩ := children_run_mem dur _ _ dev.dependents e he
    rfl
  · intro e he
    obtain ⟨t', d', rfl, hge, _⟩ := children_run_mem dur _ _ dev.dependents e he
    exact hge
  · intro e he
    obtain ⟨t', d', rfl, hge, _⟩ := children_run_mem dur _ _ dev.dependents e he
    have h1 : ((k_us_to_ticks_ceil32 hz dev.config.startup_delay_us : Int)) ≤
        event_time (Event.childNotify t' d' pm_device_action.TURN_ON) -
          max now nb := by
      simp only [event_time]
      linarith
    have h2 : ((k_us_to_ticks_ceil32 hz dev.config.startup_delay_us : Int)) *
        1000000 ≤ (event_time (Event.childNotify t' d'
          pm_device_action.TURN_ON) - max now nb) * 1000000 :=
      mul_le_mul_of_nonneg_right h1 (by norm_num)
    have h3 : ((dev.config.startup_delay_us * hz : Nat) : Int) ≤
        ((k_us_to_ticks_ceil32 hz dev.config.startup_delay_us * 1000000 :
          Nat) : Int) := Int.ofNat_le.mpr hlow
    push_cast at h3
    linarith

/-- Witness for C1: the sample device at tick rate 1000000 with an
expired deadline satisfies the hypotheses, and the RESUME trace begins
with the pin driven active at max(0, 0). -/
theorem resume_sequencing_witness :
    data0.next_boot = k_timeout_t.absTicks 0 ∧
    dev0.config.startup_delay_us * 1000000 + 999999 < 2 ^ 32 * 1000000 ∧
    ∃ evs : List Event,
      (pd_gpio_pm_action 1000000 3 dev0 env0 true data0 0
          pm_device_action.RESUME).trace =
        Event.gpioSet (max 0 0) 1 :: evs :=
  ⟨rfl, by decide,
    (resume_sequencing 1000000 3 dev0 env0 data0 0 0 rfl
      (by decide)).imp (fun _ h => h.1)⟩

/-- C3: after a SUSPEND completing at time T, a following RESUME drives
the pin active at max(now, T + cooldown-in-ticks): never before the
stored absolute deadline (hence at least cooldown_delay_us microseconds
after T, the tick conversion being rounded up), and when issued at or
after the deadline the already-expired absolute wait is a no-op and the
pin goes active immediately at the issue time. -/
theorem cooldown_enforcement (hz dur : Nat) (dev : device) (env : GpioEnv)
    (data : pd_gpio_data) (now now2 : Int)
    (hfit : dev.config.off_on_delay_us * hz + 999999 < 2 ^ 32 * 1000000) :
    ∃ (t1 : Int) (evs : List Event),
      (pd_gpio_pm_action hz dur dev env true
          (pd_gpio_pm_action hz dur dev env true data now
            pm_device_action.SUSPEND).data
          now2 pm_device_action.RESUME).trace =
        Event.gpioSet t1 1 :: evs ∧
      t1 = max now2 ((pd_gpio_pm_action hz dur dev env true data now
          pm_device_action.SUSPEND).now +
        (k_us_to_ticks_ceil32 hz dev.config.off_on_delay_us : Int)) ∧
      (pd_gpio_pm_action hz dur dev env true data now
          pm_device_action.SUSPEND).now +
        (k_us_to_ticks_ceil32 hz dev.config.off_on_delay_us : Int) ≤ t1 ∧
      (dev.config.off_on_delay_us * hz : Int) ≤
        (t1 - (pd_gpio_pm_action hz dur dev env true data now
          pm_device_action.SUSPEND).now) * 1000000 ∧
      ((pd_gpio_pm_action hz dur dev env true data now
          pm_device_action.SUSPEND).now +
        (k_us_to_ticks_ceil32 hz dev.config.off_on_delay_us : Int) ≤ now2 →
        t1 = now2) := by
  have hlow := us_to_ticks_ceil32_lower hz dev.config.off_on_delay_us hfit
  refine ⟨max now2 ((pd_gpio_pm_action hz dur dev env true data now
      pm_device_action.SUSPEND).now +
      (k_us_to_ticks_ceil32 hz dev.config.off_on_delay_us : Int)), _,
    rfl, rfl, le_max_right _ _, ?_, fun h => max_eq_left h⟩
  have h1 : ((k_us_to_ticks_ceil32 hz dev.config.off_on_delay_us : Int)) ≤
      max now2 ((pd_gpio_pm_action hz dur dev env true data now
        pm_device_action.SUSPEND).now +
        (k_us_to_ticks_ceil32 hz dev.config.off_on_delay_us : Int)) -
        (pd_gpio_pm_action hz dur dev env true data now
          pm_device_action.SUSPEND).now := by
    have := le_max_right now2
      ((pd_gpio_pm_action hz dur dev env true data now
        pm_device_action.SUSPEND).now +
        (k_us_to_ticks_ceil32 hz dev.config.off_on_delay_us : Int))
    linarith
  have h2 := mul_le_mul_of_nonneg_right h1 (by norm_num : (0 : Int) ≤ 1000000)
  have h3 : ((dev.config.off_on_delay_us * hz : Nat) : Int) ≤
      ((k_us_to_ticks_ceil32 hz dev.config.off_on_delay_us * 1000000 :
        Nat) : Int) := Int.ofNat_le.mpr hlow
  push_cast at h3
  linarith

/-- Witness for C3: the sample device at tick rate 1000000 satisfies the
fit hypothesis, and an immediate RESUME after SUSPEND drives the pin no
earlier than the stored cooldown deadline. -/
theorem cooldown_enforcement_witness :
    dev0.config.off_on_delay_us * 1000000 + 999999 < 2 ^ 32 * 1000000 ∧
    ∃ (t1 : Int) (evs : List Event),
      (pd_gpio_pm_action 1000000 3 dev0 env0 true
          (pd_gpio_pm_action 1000000 3 dev0 env0 true data0 0
            pm_device_action.SUSPEND).data 0 pm_device_action.RESUME).trace =
        Event.gpioSet t1 1 :: evs ∧
      (pd_gpio_pm_action 1000000 3 dev0 env0 true data0 0
          pm_device_action.SUSPEND).now +
        (k_us_to_ticks_ceil32 1000000 dev0.config.off_on_delay_us : Int) ≤
          t1 :=
  ⟨by decide, by
    obtain ⟨t1, evs, h1, _, h3, _, _⟩ :=
      cooldown_enforcement 1000000 3 dev0 env0 data0 0 0 (by decide)
    exact ⟨t1, evs, h1, h3⟩⟩

/-- Witness for C2: on the sample device the SUSPEND trace is the two
notifications followed by the pin driven low. -/
theorem suspend_sequencing_witness :
    ∃ (evs : List Event) (tOff : Int),
      (pd_gpio_pm_action 1000000 3 dev0 env0 true data0 0
          pm_device_action.SUSPEND).trace = evs ++ [Event.gpioSet tOff 0] ∧
      evs.map event_dep = dev0.dependents.map some := by
  obtain ⟨evs, tOff, h1, h2, _, _, _, _, _⟩ :=
    suspend_sequencing 1000000 3 dev0 env0 data0 0
  exact ⟨evs, tOff, h1, h2⟩

/-- Witness for C7: on the sample device the RESUME fan-out targets
exactly the two registered dependents in order. -/
theorem fanout_completeness_witness :
    (child_events (pd_gpio_pm_action 1000000 3 dev0 env0 true data0 0
        pm_device_action.RESUME).trace).map event_dep =
      dev0.dependents.map some :=
  (fanout_completeness 1000000 3 dev0 env0 data0 0).1

/-! ## The next_boot invariant (C4) -/

theorem ldf_append (acc : Option Int) (tr1 tr2 : List Event) :
    last_deenergize_from acc (tr1 ++ tr2) =
      last_deenergize_from (last_deenergize_from acc tr1) tr2 := by
  simp [last_deenergize_from, List.foldl_append]

theorem ldf_shift : ∀ (tr : List Event) (acc : Option Int),
    last_deenergize_from acc tr =
      match last_deenergize_from none tr with
      | none => acc
      | some x => some x
  | [], _ => rfl
  | e :: tl, acc => by
      by_cases he : is_deenergize e = true
      · have ihs := ldf_shift tl (some (event_time e))
        have h1 : last_deenergize_from acc (e :: tl) =
            last_deenergize_from (some (event_time e)) tl := by
          simp [last_deenergize_from, he]
        have h2 : last_deenergize_from none (e :: tl) =
            last_deenergize_from (some (event_time e)) tl := by
          simp [last_deenergize_from, he]
        rw [h1, h2, ihs]
        cases last_deenergize_from none tl <;> rfl
      · have iha := ldf_shift tl acc
        have h1 : last_deenergize_from acc (e :: tl) =
            last_deenergize_from acc tl := by
          simp [last_deenergize_from, he]
        have h2 : last_deenergize_from none (e :: tl) =
            last_deenergize_from none tl := by
          simp [last_deenergize_from, he]
        rw [h1, h2, iha]

theorem action_ldf_none (hz dur : Nat) (dev : device) (env : GpioEnv)
    (cy : Bool) (data : pd_gpio_data) (now : Int) (a : pm_device_action)
    (h : cy = false ∨ a ≠ pm_device_action.SUSPEND) :
    last_deenergize_from none
      (pd_gpio_pm_action hz dur dev env cy data now a).trace = none ∧
    (pd_gpio_pm_action hz dur dev env cy data now a).data = data := by
  cases cy
  · exact ⟨rfl, rfl⟩
  · cases a
    case RESUME =>
      refine ⟨?_, rfl⟩
      show last_deenergize_from none (Event.gpioSet _ 1 :: _) = none
      have hc := children_run_ldf dur pm_device_action.TURN_ON
        (k_sleep (k_sleep now data.next_boot)
          (K_USEC hz dev.config.startup_delay_us)) dev.dependents none
      simp only [last_deenergize_from, List.foldl_cons] at hc ⊢
      simpa [is_deenergize] using hc
    case SUSPEND =>
      rcases h with h | h
      · exact absurd h (by simp)
      · exact absurd rfl h
    case TURN_ON =>
      exact ⟨by simp [pd_gpio_pm_action, last_deenergize_from, is_deenergize],
        rfl⟩
    case TURN_OFF =>
      exact ⟨by simp [pd_gpio_pm_action, last_deenergize_from, is_deenergize],
        rfl⟩
    case invalid n => exact ⟨rfl, rfl⟩

theorem action_ldf_suspend (hz dur : Nat) (dev : device) (env : GpioEnv)
    (data : pd_gpio_data) (now : Int) :
    last_deenergize_from none
      (pd_gpio_pm_action hz dur dev env true data now
        pm_device_action.SUSPEND).trace =
      some (pd_gpio_pm_action hz dur dev env true data now
        pm_device_action.SUSPEND).now ∧
    (pd_gpio_pm_action hz dur dev env true data now
        pm_device_action.SUSPEND).data.next_boot =
      k_timeout_t.absTicks
        ((pd_gpio_pm_action hz dur dev env true data now
          pm_device_action.SUSPEND).now +
         (k_us_to_ticks_ceil32 hz dev.config.off_on_delay_us : Int)) := by
  refine ⟨?_, rfl⟩
  show last_deenergize_from none
    ((pm_device_children_action_run dur pm_device_action.TURN_OFF now
      dev.dependents).1 ++ [Event.gpioSet _ 0]) = _
  rw [ldf_append, children_run_ldf]
  simp [last_deenergize_from, is_deenergize, event_time]
  rfl

theorem run_next_boot (hz dur : Nat) (dev : device) (env : GpioEnv) :
    ∀ (ops : List (Bool × pm_device_action)) (data : pd_gpio_data)
      (now : Int),
      (run hz dur dev env data now ops).1.next_boot =
        match last_deenergize_time (run hz dur dev env data now ops).2.2 with
        | none => data.next_boot
        | some T => k_timeout_t.absTicks
            (T + (k_us_to_ticks_ceil32 hz dev.config.off_on_delay_us : Int))
  | [], _, _ => rfl
  | (cy, a) :: rest, data, now => by
      have ih := run_next_boot hz dur dev env rest
        (pd_gpio_pm_action hz dur dev env cy data now a).data
        (pd_gpio_pm_action hz dur dev env cy data now a).now
      simp only [run]
      rw [last_deenergize_time, ldf_append, ldf_shift]
      rw [last_deenergize_time] at ih
      by_cases hS : cy = true ∧ a = pm_device_action.SUSPEND
      · obtain ⟨rfl, rfl⟩ := hS
        obtain ⟨hA, hD⟩ := action_ldf_suspend hz dur dev env data now
        rw [hA]
        cases h2 : last_deenergize_from none
            (run hz dur dev env
              (pd_gpio_pm_action hz dur dev env true data now
                pm_device_action.SUSPEND).data
              (pd_gpio_pm_action hz dur dev env true data now
                pm_device_action.SUSPEND).now rest).2.2 with
        | none =>
            rw [h2] at ih
            simpa [hD] using ih
        | some x =>
            rw [h2] at ih
            simpa using ih
      · have hna : cy = false ∨ a ≠ pm_device_action.SUSPEND := by
          rcases Bool.eq_false_or_eq_true cy with hcy | hcy
          · exact Or.inr (fun hEq => hS ⟨hcy, hEq⟩)
          · exact Or.inl hcy
        obtain ⟨hA, hD⟩ := action_ldf_none hz dur dev env cy data now a hna
        rw [hA]
        cases h2 : last_deenergize_from none
            (run hz dur dev env
              (pd_gpio_pm_action hz dur dev env cy data now a).data
              (pd_gpio_pm_action hz dur dev env cy data now a).now
              rest).2.2 with
        | none =>
            rw [h2] at ih
            simpa [hD] using ih
        | some x =>
            rw [h2] at ih
            simpa using ih

/-- C4: next_permitted_energize_at bookkeeping — successful
initialization seeds next_boot pessimistically at boot (tick 0) plus a
full cooldown window, and after any serialized sequence of requests the
stored next_boot equals the timestamp of the last completed de-energize
(the pin driven to 0 during an accepted SUSPEND) plus the cooldown in
ticks, or still the starting value when no de-energize has happened: no
operation other than an accepted SUSPEND changes it. -/
theorem next_boot_invariant (hz dur : Nat) (dev : device) (env : GpioEnv)
    (data : pd_gpio_data) (now : Int)
    (ops : List (Bool × pm_device_action)) :
    ((pd_gpio_init hz dur dev env true false true data now).data.next_boot =
      k_timeout_t.absTicks
        (k_us_to_ticks_ceil64 hz dev.config.off_on_delay_us)) ∧
    ((run hz dur dev env data now ops).1.next_boot =
      match last_deenergize_time (run hz dur dev env data now ops).2.2 with
      | none => data.next_boot
      | some T => k_timeout_t.absTicks
          (T + (k_us_to_ticks_ceil32 hz dev.config.off_on_delay_us : Int))) :=
  ⟨rfl, run_next_boot hz dur dev env ops data now⟩

end PowerDomainGpio
